import Mathlib

/-
Shallow embedding of src/src/two_heads/ImagePairOverlapFunctionAngleOrientationSequence.py
(class ImagePairOverlapFunctionAngleOrientationSequence, a keras Sequence).

Modelling conventions:
* Label arrays (overlap, function_angle) are embedded as lists of rationals; the
  orientation array is embedded as the list of its entries already cast through
  Python int() (every claim speaks only of the orientation index "cast to integer").
* The global Python random module after random.seed 1234 is abstracted as a stream
  g : Nat -> Nat of raw draws together with a position counter; random.randint a b
  is inclusive of both endpoints, embedded as a + draw % (b - a + 1).
* The filesystem is a predicate fs : String -> Bool (does np.load succeed on the
  path).  prepareOneInput records, for each enabled modality, the path loaded and
  the channel range written (offset, count); the numeric contents of the arrays are
  irrelevant to every claim and are not tracked.  Failures become Except.error with
  the message built exactly as in the source.
* numpy 1-d setitem (used for the target rows) supports negative indices counting
  from the end and raises IndexError outside the range from -len to len - 1.
* numpy.hstack has signature hstack(tup): it accepts one positional argument, a
  sequence of arrays.  Line 130 of the source calls np.hstack(y_overlap,
  y_function_angle) with two positional arguments, which raises a TypeError in
  Python before hstack runs; the embedding of that call site returns that error.
-/

namespace OverlapSeq

/-- Constructor arguments of the sequence class (lines 17 to 20 of the source). -/
structure Params where
  image_path : String
  imgfilenames1 : List String
  imgfilenames2 : List String
  dir1 : List String
  dir2 : List String
  overlap : List Rat
  function_angle : List Rat
  orientation : List Int
  network_output_size : Nat
  batch_size : Nat
  height : Nat
  width : Nat
  no_channels : Nat
  use_depth : Bool
  use_normals : Bool
  use_class_probabilities : Bool
  use_class_probabilities_pca : Bool
  use_intensity : Bool
  rotate_data : Nat
deriving Repr, DecidableEq

/-- Mutable state of one instance: the stored parameters, n = overlap.size
(line 68), the do_rotation flag, the rotation schedule self.random_rotate and the
position reached in the random stream. -/
structure SeqState where
  p : Params
  n : Nat
  do_rotation : Bool
  random_rotate : List Nat
  rngPos : Nat
deriving Repr, DecidableEq

/-- Python random.randint a b: uniform integer with BOTH endpoints included,
driven by one raw draw from the stream. -/
def pyRandint (draw a b : Nat) : Nat := a + draw % (b - a + 1)

/-- np.array of random.randint 0 width for i in range 0 n (lines 82 and 95),
reading the stream g from position pos. -/
def mkSchedule (g : Nat → Nat) (pos n width : Nat) : List Nat :=
  (List.range n).map fun i => pyRandint (g (pos + i)) 0 width

/-- Constructor, lines 57 to 83.  When rotate_data is positive the global RNG is
seeded (the stream position restarts at 0) and the schedule is drawn; n draws are
consumed. -/
def init (g : Nat → Nat) (p : Params) : SeqState :=
  if 0 < p.rotate_data then
    { p := p, n := p.overlap.length, do_rotation := true,
      random_rotate := mkSchedule g 0 p.overlap.length p.width,
      rngPos := p.overlap.length }
  else
    { p := p, n := p.overlap.length, do_rotation := false,
      random_rotate := [], rngPos := 0 }

/-- Lines 85 to 88: int(np.ceil(n / float(batch_size))), the number of batches.
The float64 division is exact for all realistic sizes, so the embedding is exact
ceiling division on Nat (batch_size is assumed positive, as a batch size is). -/
def len (s : SeqState) : Nat := (s.n + s.p.batch_size - 1) / s.p.batch_size

/-- Lines 98 to 101: maxidx = (idx+1)*batch_size, clipped to n. -/
def maxidx (s : SeqState) (idx : Nat) : Nat :=
  if s.n < (idx + 1) * s.p.batch_size then s.n else (idx + 1) * s.p.batch_size

/-- Lines 99 to 102: size = batch_size, or n - idx*batch_size for a clipped final
batch. -/
def batchSizeAt (s : SeqState) (idx : Nat) : Nat :=
  if s.n < (idx + 1) * s.p.batch_size then s.n - idx * s.p.batch_size
  else s.p.batch_size

/-- Lines 93 to 96: on idx == 0 with rotate_data == 2, self.random_rotate is
redrawn from the current stream position; nothing else in getitem writes state. -/
def regenSchedule (g : Nat → Nat) (s : SeqState) (idx : Nat) : SeqState :=
  if idx = 0 ∧ s.p.rotate_data = 2 then
    { s with random_rotate := mkSchedule g s.rngPos s.n s.p.width,
             rngPos := s.rngPos + s.n }
  else s

/-- Python list slice l[a:b] for a ≤ b (clipped at the length, empty when b ≤ a). -/
def pySlice (l : List α) (a b : Nat) : List α := (l.drop a).take (b - a)

/-- Line 103: batch_f1 = imgfilenames1[idx*batch_size : maxidx]. -/
def batchF1 (s : SeqState) (idx : Nat) : List String :=
  pySlice s.p.imgfilenames1 (idx * s.p.batch_size) (maxidx s idx)

/-- Line 104: dir_f1 = dir1[idx*batch_size : maxidx]. -/
def dirF1 (s : SeqState) (idx : Nat) : List String :=
  pySlice s.p.dir1 (idx * s.p.batch_size) (maxidx s idx)

/-- Line 108: batch_f2 = imgfilenames2[idx*batch_size : maxidx]. -/
def batchF2 (s : SeqState) (idx : Nat) : List String :=
  pySlice s.p.imgfilenames2 (idx * s.p.batch_size) (maxidx s idx)

/-- Line 109: dir_f2 = dir2[idx*batch_size : maxidx]. -/
def dirF2 (s : SeqState) (idx : Nat) : List String :=
  pySlice s.p.dir2 (idx * s.p.batch_size) (maxidx s idx)

/-- Line 115: the totalidx argument passed to prepareOneInput for the leg-2 image
of local offset i is idx * size + i, where size is the actual (possibly
shortened) batch size. -/
def leg2TotalIdx (s : SeqState) (idx i : Nat) : Nat := idx * batchSizeAt s idx + i

/-- os.path.join of the four components used by prepareOneInput. -/
def joinPath (a b c d : String) : String := a ++ "/" ++ b ++ "/" ++ c ++ "/" ++ d

/-- Path of the depth file, line 149. -/
def depthPath (p : Params) (dirf fname : String) : String :=
  joinPath p.image_path dirf "depth" (fname ++ ".npy")

/-- Path of the normal file, line 160. -/
def normalPath (p : Params) (dirf fname : String) : String :=
  joinPath p.image_path dirf "normal" (fname ++ ".npy")

/-- Subdirectory of the probability files, lines 171 and 173. -/
def probSubdir (p : Params) : String :=
  if p.use_class_probabilities_pca then "probability_pca" else "probability"

/-- Number of probability channels written, lines 178 to 183. -/
def probWidth (p : Params) : Nat := if p.use_class_probabilities_pca then 3 else 20

/-- Primary probability path (container .npy), lines 171 and 173. -/
def probNpyPath (p : Params) (dirf fname : String) : String :=
  joinPath p.image_path dirf (probSubdir p) (fname ++ ".npy")

/-- Fallback probability path (container .npz), lines 188 and 190. -/
def probNpzPath (p : Params) (dirf fname : String) : String :=
  joinPath p.image_path dirf (probSubdir p) (fname ++ ".npz")

/-- Primary intensity path, line 202. -/
def intensityNpyPath (p : Params) (dirf fname : String) : String :=
  joinPath p.image_path dirf "intensity" (fname ++ ".npy")

/-- Fallback intensity path, line 207. -/
def intensityNpzPath (p : Params) (dirf fname : String) : String :=
  joinPath p.image_path dirf "intensity" (fname ++ ".npz")

/-- One recorded load: path read, first channel written, number of channels. -/
abbrev LoadRec := String × Nat × Nat

/-- Loop combinator for Python for i in range(start, start + count) over a
fallible body: collects the results in order and stops at the first error. -/
def rangeMapE (f : Nat → Except String β) : Nat → Nat → Except String (List β)
  | _, 0 => .ok []
  | start, count + 1 => do
    let b ← f start
    let bs ← rangeMapE f (start + 1) count
    pure (b :: bs)

/-- Depth step of prepareOneInput, lines 147 to 156: no fallback, a missing file
raises Exception with the message of line 153. -/
def loadDepth (p : Params) (fs : String → Bool) (dirf fname : String)
    (acc : List LoadRec × Nat) : Except String (List LoadRec × Nat) :=
  if p.use_depth then
    let f := depthPath p dirf fname
    if fs f then .ok (acc.1 ++ [(f, acc.2, 1)], acc.2 + 1)
    else .error ("Could not read depth image " ++ f)
  else .ok acc

/-- Normals step, lines 158 to 167: three channels, no fallback, message of
line 164. -/
def loadNormals (p : Params) (fs : String → Bool) (dirf fname : String)
    (acc : List LoadRec × Nat) : Except String (List LoadRec × Nat) :=
  if p.use_normals then
    let f := normalPath p dirf fname
    if fs f then .ok (acc.1 ++ [(f, acc.2, 3)], acc.2 + 3)
    else .error ("Could not read normal image " ++ f)
  else .ok acc

/-- Probability step, lines 169 to 199: try the .npy container, on IOError retry
with .npz; a failure of the .npz load propagates as the raw IOError naming that
path (there is no further handler). -/
def loadProb (p : Params) (fs : String → Bool) (dirf fname : String)
    (acc : List LoadRec × Nat) : Except String (List LoadRec × Nat) :=
  if p.use_class_probabilities then
    let f1 := probNpyPath p dirf fname
    if fs f1 then .ok (acc.1 ++ [(f1, acc.2, probWidth p)], acc.2 + probWidth p)
    else
      let f2 := probNpzPath p dirf fname
      if fs f2 then .ok (acc.1 ++ [(f2, acc.2, probWidth p)], acc.2 + probWidth p)
      else .error ("IOError: No such file or directory: " ++ f2)
  else .ok acc

/-- Intensity step, lines 201 to 211: try .npy, on IOError retry with .npz; a
failure of the .npz load propagates as the raw IOError naming that path. -/
def loadIntensity (p : Params) (fs : String → Bool) (dirf fname : String)
    (acc : List LoadRec × Nat) : Except String (List LoadRec × Nat) :=
  if p.use_intensity then
    let f1 := intensityNpyPath p dirf fname
    if fs f1 then .ok (acc.1 ++ [(f1, acc.2, 1)], acc.2 + 1)
    else
      let f2 := intensityNpzPath p dirf fname
      if fs f2 then .ok (acc.1 ++ [(f2, acc.2, 1)], acc.2 + 1)
      else .error ("IOError: No such file or directory: " ++ f2)
  else .ok acc

/-- Channel assembly of prepareOneInput, lines 146 to 211: the four modality
steps in their fixed order, starting at channel 0, each advancing the channel
offset; the record of loads performed is returned. -/
def prepareOneInputLoads (p : Params) (fs : String → Bool) (dirf fname : String) :
    Except String (List LoadRec) := do
  let a1 ← loadDepth p fs dirf fname ([], 0)
  let a2 ← loadNormals p fs dirf fname a1
  let a3 ← loadProb p fs dirf fname a2
  let a4 ← loadIntensity p fs dirf fname a3
  pure a4.1

/-- One assembled sample slot: the loads performed and, for a rotated leg-2
sample, the shift read from self.random_rotate (lines 213 to 216). -/
abbrev SampleInput := List LoadRec × Option Nat

/-- Body of the loop of lines 112 to 115 for one local offset i: assemble the
leg-1 slot (never rotated), and when imgfilenames2 is nonempty also the leg-2
slot, reading the shift random_rotate[idx * size + i] when do_rotation holds.
A list index past the end of a batch slice raises IndexError. -/
def sampleStep (fs : String → Bool) (s : SeqState) (idx i : Nat) :
    Except String (SampleInput × Option SampleInput) := do
  let l1 ←
    match (batchF1 s idx)[i]?, (dirF1 s idx)[i]? with
    | some fn, some d => prepareOneInputLoads s.p fs d fn
    | _, _ => .error "IndexError: list index out of range"
  if s.p.imgfilenames2 ≠ [] then do
    let l2 ←
      match (batchF2 s idx)[i]?, (dirF2 s idx)[i]? with
      | some fn, some d => prepareOneInputLoads s.p fs d fn
      | _, _ => .error "IndexError: list index out of range"
    let sh ←
      if s.do_rotation then
        match s.random_rotate[leg2TotalIdx s idx i]? with
        | some v => Except.ok (some v)
        | none => .error "IndexError: index out of bounds for random_rotate"
      else Except.ok none
    pure ((l1, none), some (l2, sh))
  else
    pure ((l1, none), none)

/-- Loop of lines 112 to 115 over i in range size. -/
def batchItems (fs : String → Bool) (s : SeqState) (idx : Nat) :
    Except String (List (SampleInput × Option SampleInput)) :=
  rangeMapE (sampleStep fs s idx) 0 (batchSizeAt s idx)

/-- numpy 1-d array setitem with a plain integer index: a negative index counts
from the end; an index below -len or at or above len raises IndexError. -/
def npSetItem (a : List Rat) (k : Int) (v : Rat) : Except String (List Rat) :=
  if k < -(a.length : Int) ∨ (a.length : Int) ≤ k then
    .error ("IndexError: index " ++ toString k ++ " is out of bounds")
  else
    .ok (a.set (if k < 0 then k + a.length else k).toNat v)

/-- Lines 123 to 124: one target row, np.zeros(network_output_size) with
y_function_angle written at int(y_orientation). -/
def mkTargetRow (M : Nat) (o : Int) (v : Rat) : Except String (List Rat) :=
  npSetItem (List.replicate M 0) o v

/-- Loop of lines 120 to 127: one row per element of the y_overlap slice, each
indexing the orientation and function_angle slices at the same offset. -/
def mkTargets (M : Nat) (y_overlap y_fa : List Rat) (y_orient : List Int) :
    Except String (List (List Rat)) :=
  rangeMapE
    (fun j =>
      match y_orient[j]?, y_fa[j]? with
      | some o, some v => mkTargetRow M o v
      | _, _ => .error "IndexError: index out of bounds")
    0 y_overlap.length

/-- Line 130 calls np.hstack(y_overlap, y_function_angle).  numpy.hstack has
signature hstack(tup): one positional argument holding the sequence of arrays to
concatenate, so the call with two positional arguments raises TypeError before
any concatenation happens. -/
def npHstackTwoPositional (a b : List Rat) : Except String (List Rat) :=
  .error "TypeError: hstack takes 1 positional argument but 2 were given"

/-- Value returned by getitem, lines 129 to 132: either a single-leg pair
([x1], y) or a two-leg pair ([x1, x2], [hstack(overlap, fa), y]).  A leg tensor
is the list of its assembled sample slots. -/
inductive PyReturn where
  | singleLeg (inputs : List (List SampleInput)) (target : List (List Rat))
  | twoLeg (inputs : List (List SampleInput)) (t1 : List Rat)
      (t2 : List (List Rat))
deriving Repr, DecidableEq

/-- Label slice y_overlap of line 117 (and its siblings of lines 118 and 119 via
the same bounds). -/
def ySliceAt (s : SeqState) (idx : Nat) (l : List α) : List α :=
  pySlice l (idx * s.p.batch_size) (maxidx s idx)

/-- Pure part of getitem, lines 98 to 132, after the schedule side effect:
assemble the batch slots, build the target rows, and package the return value.
The two-leg branch evaluates np.hstack(y_overlap, y_function_angle). -/
def getItemResult (fs : String → Bool) (s : SeqState) (idx : Nat) :
    Except String PyReturn := do
  let items ← batchItems fs s idx
  let y_overlap := ySliceAt s idx s.p.overlap
  let y_fa := ySliceAt s idx s.p.function_angle
  let y_orient := ySliceAt s idx s.p.orientation
  let y ← mkTargets s.p.network_output_size y_overlap y_fa y_orient
  if s.p.imgfilenames2 ≠ [] then do
    let h ← npHstackTwoPositional y_overlap y_fa
    pure (.twoLeg [items.map Prod.fst, items.filterMap Prod.snd] h y)
  else
    pure (.singleLeg [items.map Prod.fst] y)

/-- getitem, lines 90 to 132: the schedule regeneration side effect of lines 93
to 96, then the pure batch assembly on the updated state. -/
def getBatch (g : Nat → Nat) (fs : String → Bool) (s : SeqState) (idx : Nat) :
    SeqState × Except String PyReturn :=
  let s2 := regenSchedule g s idx
  (s2, getItemResult fs s2 idx)

/-! Concrete instances used to evaluate the definitions. -/

/-- Filesystem on which every load fails. -/
def fsNone : String → Bool := fun _ => false

/-- Stream of zero draws. -/
def gZero : Nat → Nat := fun _ => 0

/-- Minimal single-leg parameter set: one sample, all modality flags off. -/
def pBase : Params :=
  { image_path := "root", imgfilenames1 := ["a"], imgfilenames2 := [],
    dir1 := ["s"], dir2 := [], overlap := [1/2], function_angle := [7/10],
    orientation := [3], network_output_size := 10, batch_size := 1,
    height := 2, width := 4, no_channels := 4,
    use_depth := false, use_normals := false, use_class_probabilities := false,
    use_class_probabilities_pca := false, use_intensity := false,
    rotate_data := 0 }

/-- Two-leg parameter set with three samples and batch_size 2, so the final
batch (idx = 1) is shortened to one sample; rotation mode 1. -/
def pC1 : Params :=
  { pBase with
    imgfilenames1 := ["a", "b", "c"]
    imgfilenames2 := ["d", "e", "f"]
    dir1 := ["s", "s", "s"]
    dir2 := ["t", "t", "t"]
    overlap := [1/10, 2/10, 3/10]
    function_angle := [0, 0, 0]
    orientation := [0, 0, 0]
    network_output_size := 1
    batch_size := 2
    width := 100
    rotate_data := 1 }

/-- Stream whose first draws are 10, 20, 30, giving the schedule [10, 20, 30]
under width 100. -/
def gC1 : Nat → Nat := fun i => 10 * (i + 1)

/-- Constructed two-leg state: random_rotate = [10, 20, 30]. -/
def sC1 : SeqState := init gC1 pC1

/-- Single-leg state with network_output_size 1 and orientation 0. -/
def sC2single : SeqState :=
  init gZero { pBase with network_output_size := 1, orientation := [0] }

/-- Rotation mode 1 variant of the one-sample parameters (width 4). -/
def pC3 : Params := { pBase with rotate_data := 1 }

/-- Stream every draw of which is 4: random.randint 0 4 then returns 4. -/
def gFour : Nat → Nat := fun _ => 4

/-- Single-leg state whose only orientation entry is -1. -/
def sC7 : SeqState := init gZero { pBase with orientation := [-1] }

/-- Rotation mode 2 variant of the two-leg state. -/
def sC4 : SeqState := init gC1 { pC1 with rotate_data := 2 }

/-- Parameters with the depth modality enabled. -/
def pC9 : Params := { pBase with use_depth := true }

/-- Parameters equal to pBase except for a longer filename list. -/
def pC10 : Params := { pBase with imgfilenames1 := ["a", "b", "c", "d"] }

/-- Target array produced for pBase: one row of length 10 with 7/10 at index 3. -/
def ysC6 : List (List Rat) := [(List.replicate 10 (0 : Rat)).set 3 (7/10)]

end OverlapSeq

namespace OverlapSeq

/-- C1: the claim says the shift applied to the leg-2 sample at local offset j of
batch idx is schedule[idx * batch_size + j], including the shortened final
batch.  The code (line 115) instead passes totalidx = idx * size + j with the
shortened size: on the state sC1 (n = 3, batch_size = 2, schedule [10, 20, 30]),
batch 1 has size 1 and its only leg-2 sample receives shift
schedule[1 * 1 + 0] = 20, while the claimed index is 1 * batch_size + 0 = 2 with
schedule[2] = 30. -/
theorem C1_shortened_batch_shift_divergence :
    batchItems fsNone sC1 1 = .ok [(([], none), some ([], some 20))] ∧
    sC1.random_rotate[leg2TotalIdx sC1 1 0]? = some 20 ∧
    1 * sC1.p.batch_size + 0 = 2 ∧ sC1.random_rotate[2]? = some 30 :=
  ⟨rfl, rfl, rfl, rfl⟩

/-- C2: in two-leg mode line 130 evaluates np.hstack(y_overlap,
y_function_angle); numpy.hstack takes a single positional argument (the tuple of
arrays), so every two-leg get_batch call raises TypeError instead of returning
([x1, x2], [concat, target]); the single-leg return ([x1], target) is as
claimed. -/
theorem C2_two_leg_hstack_type_error :
    getItemResult fsNone sC1 1 =
      .error "TypeError: hstack takes 1 positional argument but 2 were given" ∧
    getItemResult fsNone sC2single 0 =
      .ok (.singleLeg [[([], none)]] [[7/10]]) :=
  ⟨rfl, rfl⟩

/-- C3 counterexample: Python random.randint 0 width includes width, so a stream
whose draw is 4 makes the schedule entry equal to width = 4, outside the claimed
half-open range [0, width). -/
theorem C3_counterexample :
    ¬ (∀ x ∈ (init gFour pC3).random_rotate, x < pC3.width) := by
  decide

/-- C7 counterexample: on the state sC7 the only orientation index is -1, which
is outside [0, 10), yet get_batch does not fail: numpy negative indexing wraps
and the function angle 7/10 is written at position 10 - 1 = 9. -/
theorem C7_counterexample :
    ((-1 : Int) < 0 ∨ (10 : Int) ≤ -1) ∧
    getItemResult fsNone sC7 0 =
      .ok (.singleLeg [[([], none)]]
        [[0, 0, 0, 0, 0, 0, 0, 0, 0, 7/10]]) :=
  ⟨Or.inl (by decide), rfl⟩

/-! Helper lemmas shared by the claim theorems. -/

theorem bind_error_eq {α β : Type} (e : String) (f : α → Except String β) :
    (Except.error e : Except String α) >>= f = .error e := rfl

theorem bind_ok_eq {α β : Type} (a : α) (f : α → Except String β) :
    (Except.ok a : Except String α) >>= f = f a := rfl

theorem mem_mkSchedule_le {g : Nat → Nat} {pos n w x : Nat}
    (hx : x ∈ mkSchedule g pos n w) : x ≤ w := by
  rcases List.mem_map.1 hx with ⟨i, -, rfl⟩
  have h := Nat.mod_lt (g (pos + i)) (show 0 < w + 1 by omega)
  simp only [pyRandint, Nat.zero_add, Nat.sub_zero]
  omega

theorem init_p (g : Nat → Nat) (p : Params) : (init g p).p = p := by
  unfold init; split <;> rfl

theorem init_n (g : Nat → Nat) (p : Params) : (init g p).n = p.overlap.length := by
  unfold init; split <;> rfl

theorem getBatch_fst (g : Nat → Nat) (fs : String → Bool) (s : SeqState) (idx : Nat) :
    (getBatch g fs s idx).1 = regenSchedule g s idx := rfl

theorem regen_not_mode2 {g : Nat → Nat} {s : SeqState} {idx : Nat}
    (h : ¬ (idx = 0 ∧ s.p.rotate_data = 2)) : regenSchedule g s idx = s := by
  unfold regenSchedule; rw [if_neg h]

/-- C3 amended: every entry of the rotation schedule, both at construction and
after a mode-2 regeneration on batch 0, lies in the CLOSED range [0, width]:
Python random.randint 0 width includes width itself.  (The claimed half-open
range [0, width) fails, see the counterexample.) -/
theorem C3_schedule_entries_at_most_width :
    (∀ (g : Nat → Nat) (p : Params), ∀ x ∈ (init g p).random_rotate, x ≤ p.width) ∧
    (∀ (g : Nat → Nat) (fs : String → Bool) (s : SeqState),
      s.p.rotate_data = 2 →
      ∀ x ∈ (getBatch g fs s 0).1.random_rotate, x ≤ s.p.width) := by
  constructor
  · intro g p x hx
    unfold init at hx
    by_cases h : 0 < p.rotate_data
    · rw [if_pos h] at hx
      exact mem_mkSchedule_le hx
    · rw [if_neg h] at hx
      simp at hx
  · intro g fs s h x hx
    rw [getBatch_fst] at hx
    unfold regenSchedule at hx
    rw [if_pos ⟨rfl, h⟩] at hx
    exact mem_mkSchedule_le hx

/-- Witness for C3: the entry 20 of the schedule of sC1 is at most width 100. -/
theorem C3_amended_witness : (20 : Nat) ≤ pC1.width :=
  C3_schedule_entries_at_most_width.1 gC1 pC1 20 (by decide)

/-- C4: the only state change of get_batch is the schedule side effect, and it
happens exactly on the calls with idx = 0 in rotation mode 2, where a fresh
shift is drawn for every sample index in [0, n) from the next n stream
positions; every other call (idx different from 0, or rotation mode 0 or 1)
leaves the state untouched. -/
theorem C4_regeneration_exactly_on_first_batch (g : Nat → Nat) (fs : String → Bool)
    (s : SeqState) (idx : Nat) :
    (idx = 0 ∧ s.p.rotate_data = 2 →
      (getBatch g fs s idx).1.random_rotate =
        (List.range s.n).map (fun i => pyRandint (g (s.rngPos + i)) 0 s.p.width) ∧
      (getBatch g fs s idx).1.rngPos = s.rngPos + s.n) ∧
    (¬ (idx = 0 ∧ s.p.rotate_data = 2) → (getBatch g fs s idx).1 = s) := by
  constructor
  · intro h
    rw [getBatch_fst]
    unfold regenSchedule
    rw [if_pos h]
    exact ⟨rfl, rfl⟩
  · intro h
    rw [getBatch_fst]
    exact regen_not_mode2 h

/-- Witness for C4: on the mode-2 state sC4, batch 0 redraws the schedule and
batch 1 leaves the state unchanged. -/
theorem C4_witness :
    (getBatch gC1 fsNone sC4 0).1.random_rotate =
      (List.range sC4.n).map (fun i => pyRandint (gC1 (sC4.rngPos + i)) 0 sC4.p.width) ∧
    (getBatch gC1 fsNone sC4 1).1 = sC4 :=
  ⟨((C4_regeneration_exactly_on_first_batch gC1 fsNone sC4 0).1 ⟨rfl, rfl⟩).1,
   (C4_regeneration_exactly_on_first_batch gC1 fsNone sC4 1).2 (by decide)⟩

/-- C7 amended: writing the function angle into the target row fails with
IndexError exactly when the integer orientation lies outside [-M, M); an index
in [-M, 0) does not fail: numpy wraps it around and the value lands at position
M + orientation. -/
theorem C7_index_error_iff_outside_signed_range (M : Nat) (o : Int) (v : Rat) :
    (o < -(M : Int) ∨ (M : Int) ≤ o →
      mkTargetRow M o v =
        .error ("IndexError: index " ++ toString o ++ " is out of bounds")) ∧
    (-(M : Int) ≤ o → o < 0 →
      mkTargetRow M o v = .ok ((List.replicate M (0 : Rat)).set (o + M).toNat v)) := by
  constructor
  · intro h
    unfold mkTargetRow npSetItem
    rw [List.length_replicate]
    rw [if_pos h]
  · intro h1 h2
    unfold mkTargetRow npSetItem
    rw [List.length_replicate]
    rw [if_neg (by omega)]
    rw [if_pos h2]

/-- Witness for C7: index 12 with M = 10 raises IndexError. -/
theorem C7_amended_witness :
    mkTargetRow 10 12 (1/2) =
      .error ("IndexError: index " ++ toString (12 : Int) ++ " is out of bounds") :=
  (C7_index_error_iff_outside_signed_range 10 12 (1/2)).1 (Or.inr (by decide))

/-- C8: in rotation mode 1 no sequence of get_batch calls changes the state, so
the shift of every global sample index i stays the schedule entry drawn at
construction from the fixed seed, across repeated calls and across passes. -/
theorem C8_mode1_state_frozen (g : Nat → Nat) (fs : String → Bool) (p : Params)
    (h : p.rotate_data = 1) (idxs : List Nat) :
    idxs.foldl (fun st i => (getBatch g fs st i).1) (init g p) = init g p ∧
    ∀ i : Nat,
      (idxs.foldl (fun st i => (getBatch g fs st i).1) (init g p)).random_rotate[i]? =
        (mkSchedule g 0 p.overlap.length p.width)[i]? := by
  have hstep : ∀ idx, (getBatch g fs (init g p) idx).1 = init g p := by
    intro idx
    rw [getBatch_fst]
    apply regen_not_mode2
    rintro ⟨-, h2⟩
    rw [init_p] at h2
    omega
  have hfold : idxs.foldl (fun st i => (getBatch g fs st i).1) (init g p) = init g p := by
    induction idxs with
    | nil => rfl
    | cons a l ih =>
      rw [List.foldl_cons, hstep a]
      exact ih
  refine ⟨hfold, fun i => ?_⟩
  rw [hfold]
  have hrr : (init g p).random_rotate = mkSchedule g 0 p.overlap.length p.width := by
    unfold init
    rw [if_pos (by omega : 0 < p.rotate_data)]
  rw [hrr]

/-- Witness for C8: two simulated passes over the mode-1 state leave it equal to
the construction state. -/
theorem C8_witness :
    ([0, 1, 0, 1] : List Nat).foldl (fun st i => (getBatch gC1 fsNone st i).1)
      (init gC1 pC1) = init gC1 pC1 :=
  (C8_mode1_state_frozen gC1 fsNone pC1 rfl [0, 1, 0, 1]).1

theorem ceil_div_facts (n bs : Nat) (hn : 1 ≤ n) (hb : 1 ≤ bs) :
    (n + bs - 1) / bs = (n - 1) / bs + 1 ∧
    ((n - 1) / bs) * bs < n ∧
    n ≤ ((n - 1) / bs + 1) * bs := by
  have hb0 : 0 < bs := hb
  have hq : (n + bs - 1) / bs = (n - 1) / bs + 1 := by
    have he : n + bs - 1 = (n - 1) + bs := by omega
    rw [he, Nat.add_div_right _ hb0]
  have h1 : ((n - 1) / bs) * bs < n := by
    have hle := Nat.div_mul_le_self (n - 1) bs
    omega
  have h2 : n ≤ ((n - 1) / bs + 1) * bs := by
    have hmod := Nat.div_add_mod (n - 1) bs
    have hlt : (n - 1) % bs < bs := Nat.mod_lt _ hb0
    have hx : ((n - 1) / bs + 1) * bs = bs * ((n - 1) / bs) + bs := by ring
    rw [hx]
    omega
  exact ⟨hq, h1, h2⟩

theorem len_ceil_cast (n bs : Nat) (hn : 1 ≤ n) (hb : 1 ≤ bs) :
    (((n + bs - 1) / bs : Nat) : Int) = ⌈(n : Rat) / (bs : Rat)⌉ := by
  obtain ⟨hq, h1, h2⟩ := ceil_div_facts n bs hn hb
  have hbq : (0 : Rat) < (bs : Rat) := by exact_mod_cast hb
  rw [hq]
  generalize (n - 1) / bs = k at h1 h2 ⊢
  symm
  rw [Int.ceil_eq_iff]
  constructor
  · have he : (((k + 1 : Nat) : Int) : Rat) - 1 = ((k : Nat) : Rat) := by
      push_cast; ring
    rw [he, lt_div_iff₀ hbq]
    exact_mod_cast h1
  · rw [div_le_iff₀ hbq]
    exact_mod_cast h2

/-- C10: n is defined as the size of the overlap array (line 68), the number of
batches is ceil(overlap.size / batch_size), and it does not depend on the
lengths of the filename or directory lists. -/
theorem C10_length_from_overlap_size (g g2 : Nat → Nat) (p p2 : Params)
    (hov : p.overlap = p2.overlap) (hbs : p.batch_size = p2.batch_size)
    (hn : 1 ≤ p.overlap.length) (hb : 1 ≤ p.batch_size) :
    (init g p).n = p.overlap.length ∧
    ((len (init g p) : Int) = ⌈(p.overlap.length : Rat) / (p.batch_size : Rat)⌉) ∧
    len (init g p) = len (init g2 p2) := by
  have hlen : ∀ (g3 : Nat → Nat) (p3 : Params),
      len (init g3 p3) = (p3.overlap.length + p3.batch_size - 1) / p3.batch_size := by
    intro g3 p3
    unfold len
    rw [init_n, init_p]
  refine ⟨init_n g p, ?_, ?_⟩
  · rw [hlen g p]
    exact len_ceil_cast p.overlap.length p.batch_size hn hb
  · rw [hlen g p, hlen g2 p2, hov, hbs]

/-- Witness for C10: the number of batches of pBase is unchanged when the
filename list is replaced by a longer one. -/
theorem C10_witness : len (init gZero pBase) = len (init gZero pC10) :=
  (C10_length_from_overlap_size gZero gZero pBase pC10 rfl rfl (by decide)
    (by decide)).2.2

/-- C5: len is ceil(n / batch_size); batch idx reaches maxidx =
min((idx+1)*batch_size, n), its size is maxidx - idx*batch_size (so the final
clipped batch has size n - idx*batch_size), the sliced label list of batch idx
holds exactly the entries at global indices idx*batch_size + j for local
offsets j below the batch size, and the batch sizes over all batch indices sum
to n: the batches partition [0, n) contiguously in order. -/
theorem C5_length_and_partition (s : SeqState) (hn : 1 ≤ s.n)
    (hb : 1 ≤ s.p.batch_size) :
    ((len s : Int) = ⌈(s.n : Rat) / (s.p.batch_size : Rat)⌉) ∧
    (∀ idx, maxidx s idx = min ((idx + 1) * s.p.batch_size) s.n) ∧
    (∀ idx, batchSizeAt s idx = maxidx s idx - idx * s.p.batch_size) ∧
    (∀ idx, s.n < (idx + 1) * s.p.batch_size →
      batchSizeAt s idx = s.n - idx * s.p.batch_size) ∧
    (∀ (l : List Rat) (idx j : Nat),
      (ySliceAt s idx l)[j]? =
        if j < batchSizeAt s idx then l[idx * s.p.batch_size + j]? else none) ∧
    (Finset.range (len s)).sum (batchSizeAt s) = s.n := by
  have hmax : ∀ idx, maxidx s idx = min ((idx + 1) * s.p.batch_size) s.n := by
    intro idx
    unfold maxidx
    split <;> omega
  have hsz : ∀ idx, batchSizeAt s idx = maxidx s idx - idx * s.p.batch_size := by
    intro idx
    unfold batchSizeAt maxidx
    rw [add_one_mul]
    split <;> omega
  have hfin : ∀ idx, s.n < (idx + 1) * s.p.batch_size →
      batchSizeAt s idx = s.n - idx * s.p.batch_size := by
    intro idx h
    unfold batchSizeAt
    rw [if_pos h]
  have hslice : ∀ (l : List Rat) (idx j : Nat),
      (ySliceAt s idx l)[j]? =
        if j < batchSizeAt s idx then l[idx * s.p.batch_size + j]? else none := by
    intro l idx j
    unfold ySliceAt pySlice
    rw [List.getElem?_take, List.getElem?_drop, ← hsz idx]
  have hlen2 : len s = (s.n - 1) / s.p.batch_size + 1 := by
    have hq := (ceil_div_facts s.n s.p.batch_size hn hb).1
    unfold len
    omega
  have hidxbs : ∀ idx, idx < len s → idx * s.p.batch_size < s.n := by
    intro idx hidx
    obtain ⟨-, h1, -⟩ := ceil_div_facts s.n s.p.batch_size hn hb
    have hle : idx ≤ (s.n - 1) / s.p.batch_size := by omega
    have hmul := Nat.mul_le_mul_right s.p.batch_size hle
    omega
  have hkey : ∀ idx ∈ Finset.range (len s),
      batchSizeAt s idx =
        min ((idx + 1) * s.p.batch_size) s.n - min (idx * s.p.batch_size) s.n := by
    intro idx hidx
    rw [Finset.mem_range] at hidx
    have hlt := hidxbs idx hidx
    rw [hsz idx, hmax idx, min_eq_left (Nat.le_of_lt hlt)]
  have hmono : Monotone (fun i => min (i * s.p.batch_size) s.n) := by
    intro a b hab
    exact min_le_min (Nat.mul_le_mul_right _ hab) le_rfl
  have hsum : (Finset.range (len s)).sum (batchSizeAt s) = s.n := by
    rw [Finset.sum_congr rfl hkey]
    have ht := Finset.sum_range_tsub hmono (len s)
    simp only at ht
    rw [ht]
    have hge : s.n ≤ len s * s.p.batch_size := by
      obtain ⟨-, -, h2⟩ := ceil_div_facts s.n s.p.batch_size hn hb
      calc s.n ≤ ((s.n - 1) / s.p.batch_size + 1) * s.p.batch_size := h2
        _ = len s * s.p.batch_size := by rw [hlen2]
    rw [min_eq_right hge]
    simp
  exact ⟨by unfold len; exact len_ceil_cast _ _ hn hb, hmax, hsz, hfin, hslice, hsum⟩

/-- Witness for C5: the batch sizes of sC1 (n = 3, batch_size = 2) sum to 3. -/
theorem C5_witness :
    (Finset.range (len sC1)).sum (batchSizeAt sC1) = sC1.n :=
  (C5_length_and_partition sC1 (by decide) (by decide)).2.2.2.2.2

theorem rangeMapE_ok_get {β : Type} (f : Nat → Except String β) :
    ∀ (count start : Nat) (ys : List β), rangeMapE f start count = .ok ys →
      ∀ j, j < count → ∃ b, f (start + j) = .ok b ∧ ys[j]? = some b := by
  intro count
  induction count with
  | zero => intro start ys h j hj; omega
  | succ c ih =>
    intro start ys h j hj
    rw [show rangeMapE f start (c + 1) =
        (do
          let b ← f start
          let bs ← rangeMapE f (start + 1) c
          pure (b :: bs)) from rfl] at h
    cases hb : f start with
    | error e => rw [hb, bind_error_eq] at h; cases h
    | ok b =>
      rw [hb, bind_ok_eq] at h
      cases hbs : rangeMapE f (start + 1) c with
      | error e => rw [hbs, bind_error_eq] at h; cases h
      | ok bs =>
        rw [hbs, bind_ok_eq] at h
        have hys : b :: bs = ys := by injection h
        subst hys
        cases j with
        | zero => exact ⟨b, by simpa using hb, by simp⟩
        | succ jj =>
          obtain ⟨bb, hfb, hget⟩ := ih (start + 1) bs hbs jj (by omega)
          refine ⟨bb, ?_, by simpa using hget⟩
          have harg : start + 1 + jj = start + (jj + 1) := by omega
          rw [← harg]
          exact hfb

/-- C6: when the targets of a batch are assembled successfully and the j-th
orientation index, cast to integer, is o with 0 ≤ o < M, the j-th target row
has length M, holds the j-th function angle at position o, and 0 at every other
position. -/
theorem C6_target_row (M : Nat) (ov fa : List Rat) (orient : List Int)
    (j : Nat) (o : Int) (v : Rat) (ys : List (List Rat))
    (hj : j < ov.length) (ho : orient[j]? = some o) (hv : fa[j]? = some v)
    (h0 : 0 ≤ o) (hM : o < (M : Int))
    (hys : mkTargets M ov fa orient = .ok ys) :
    ∃ row, ys[j]? = some row ∧ row.length = M ∧
      ∀ k, k < M → row[k]? = some (if (k : Int) = o then v else 0) := by
  unfold mkTargets at hys
  obtain ⟨b, hfb, hget⟩ := rangeMapE_ok_get _ ov.length 0 ys hys j hj
  rw [Nat.zero_add, ho, hv] at hfb
  have hfb2 : npSetItem (List.replicate M (0 : Rat)) o v = Except.ok b := hfb
  unfold npSetItem at hfb2
  rw [List.length_replicate] at hfb2
  rw [if_neg (by omega)] at hfb2
  rw [if_neg (by omega : ¬ o < 0)] at hfb2
  have hbv : (List.replicate M (0 : Rat)).set o.toNat v = b := by injection hfb2
  subst hbv
  refine ⟨_, hget, ?_, ?_⟩
  · rw [List.length_set, List.length_replicate]
  · intro k hk
    rw [List.getElem?_set, List.length_replicate]
    by_cases hko : o.toNat = k
    · rw [if_pos hko, if_pos (by omega : o.toNat < M),
        if_pos (by omega : (k : Int) = o)]
    · rw [if_neg hko, List.getElem?_replicate, if_pos hk,
        if_neg (by omega : ¬ (k : Int) = o)]

/-- Witness for C6: orientation 3, function angle 7/10, M = 10 gives the row
with 7/10 at index 3 and 0 elsewhere. -/
theorem C6_witness :
    ∃ row, ysC6[0]? = some row ∧ row.length = 10 ∧
      ∀ k : Nat, k < 10 → row[k]? = some (if (k : Int) = 3 then (7/10 : Rat) else 0) :=
  C6_target_row 10 [1/2] [7/10] [3] 0 3 (7/10) ysC6 (by decide) rfl rfl
    (by decide) (by decide) rfl

/-- C9: only the probability and intensity modalities consult a fallback
container (.npz) after a primary (.npy) load failure, with the first success
winning; a missing depth or normals file has no fallback and fails at once with
a message naming the attempted path; and a failure of the per-sample assembly
propagates unchanged through the batch assembly of get_batch (no silent
defaulting). -/
theorem C9_fallback_policy (p : Params) (fs : String → Bool) (dirf fname : String)
    (acc : List LoadRec × Nat) :
    (p.use_depth = true → fs (depthPath p dirf fname) = false →
      prepareOneInputLoads p fs dirf fname =
        .error ("Could not read depth image " ++ depthPath p dirf fname)) ∧
    (p.use_normals = true → (p.use_depth = true → fs (depthPath p dirf fname) = true) →
      fs (normalPath p dirf fname) = false →
      prepareOneInputLoads p fs dirf fname =
        .error ("Could not read normal image " ++ normalPath p dirf fname)) ∧
    (p.use_class_probabilities = true → fs (probNpyPath p dirf fname) = true →
      loadProb p fs dirf fname acc =
        .ok (acc.1 ++ [(probNpyPath p dirf fname, acc.2, probWidth p)],
          acc.2 + probWidth p)) ∧
    (p.use_class_probabilities = true → fs (probNpyPath p dirf fname) = false →
      fs (probNpzPath p dirf fname) = true →
      loadProb p fs dirf fname acc =
        .ok (acc.1 ++ [(probNpzPath p dirf fname, acc.2, probWidth p)],
          acc.2 + probWidth p)) ∧
    (p.use_class_probabilities = true → fs (probNpyPath p dirf fname) = false →
      fs (probNpzPath p dirf fname) = false →
      loadProb p fs dirf fname acc =
        .error ("IOError: No such file or directory: " ++ probNpzPath p dirf fname)) ∧
    (p.use_intensity = true → fs (intensityNpyPath p dirf fname) = true →
      loadIntensity p fs dirf fname acc =
        .ok (acc.1 ++ [(intensityNpyPath p dirf fname, acc.2, 1)], acc.2 + 1)) ∧
    (p.use_intensity = true → fs (intensityNpyPath p dirf fname) = false →
      fs (intensityNpzPath p dirf fname) = true →
      loadIntensity p fs dirf fname acc =
        .ok (acc.1 ++ [(intensityNpzPath p dirf fname, acc.2, 1)], acc.2 + 1)) ∧
    (p.use_intensity = true → fs (intensityNpyPath p dirf fname) = false →
      fs (intensityNpzPath p dirf fname) = false →
      loadIntensity p fs dirf fname acc =
        .error ("IOError: No such file or directory: " ++
          intensityNpzPath p dirf fname)) ∧
    (∀ (s : SeqState) (idx : Nat) (e : String),
      batchItems fs s idx = .error e → getItemResult fs s idx = .error e) := by
  refine ⟨?_, ?_, ?_, ?_, ?_, ?_, ?_, ?_, ?_⟩
  · intro h1 h2
    have hd : loadDepth p fs dirf fname ([], 0) =
        .error ("Could not read depth image " ++ depthPath p dirf fname) := by
      simp [loadDepth, h1, h2]
    unfold prepareOneInputLoads
    rw [hd, bind_error_eq]
  · intro h1 h2 h3
    cases hud : p.use_depth with
    | true =>
      have hd : loadDepth p fs dirf fname ([], 0) =
          .ok ([(depthPath p dirf fname, 0, 1)], 1) := by
        simp [loadDepth, hud, h2 hud]
      have hnm : loadNormals p fs dirf fname ([(depthPath p dirf fname, 0, 1)], 1) =
          .error ("Could not read normal image " ++ normalPath p dirf fname) := by
        simp [loadNormals, h1, h3]
      unfold prepareOneInputLoads
      rw [hd, bind_ok_eq, hnm, bind_error_eq]
    | false =>
      have hd : loadDepth p fs dirf fname ([], 0) = .ok ([], 0) := by
        simp [loadDepth, hud]
      have hnm : loadNormals p fs dirf fname ([], 0) =
          .error ("Could not read normal image " ++ normalPath p dirf fname) := by
        simp [loadNormals, h1, h3]
      unfold prepareOneInputLoads
      rw [hd, bind_ok_eq, hnm, bind_error_eq]
  · intro h1 h2
    simp [loadProb, h1, h2]
  · intro h1 h2 h3
    simp [loadProb, h1, h2, h3]
  · intro h1 h2 h3
    simp [loadProb, h1, h2, h3]
  · intro h1 h2
    simp [loadIntensity, h1, h2]
  · intro h1 h2 h3
    simp [loadIntensity, h1, h2, h3]
  · intro h1 h2 h3
    simp [loadIntensity, h1, h2, h3]
  · intro s idx e h
    unfold getItemResult
    rw [h, bind_error_eq]

/-- Witness for C9: with depth enabled and an empty filesystem, the batch
assembly fails with the depth error naming the attempted .npy path. -/
theorem C9_witness :
    prepareOneInputLoads pC9 fsNone "s" "a" =
      .error ("Could not read depth image " ++ depthPath pC9 "s" "a") :=
  (C9_fallback_policy pC9 fsNone "s" "a" ([], 0)).1 rfl rfl

end OverlapSeq
